import Mathlib

/-!
Verification development for a chat-platform rating bot (`bot.py`).

The bot lets members submit three-category star ratings (service,
problem-solving, communication) for designated admins, persists ratings in a
remote keyed table, and renders a summary card.  We shallowly embed the
original logic: the in-memory draft table and the star-selection /
category-selection callbacks, the aggregation function `fetch_stats`, the
star-glyph renderer `stars`, the image lookup `get_custom_image`, and the
attachment intake of the `setupreview` command.  Python integers are
modelled as `Int`, Python float arithmetic on small integer sums as `Rat`,
and remote-call failures as explicit `Except` values or boolean failure
flags.
-/

/-- One of the three fixed rating dimensions (`CATEGORIES` keys in the
source). -/
inductive Category
  | service
  | solving
  | communication
deriving DecidableEq, Repr

/-- `RatingDraft` dataclass: a transient partial rating, each field optional
(`None` until chosen). -/
structure RatingDraft where
  service : Option Int := none
  solving : Option Int := none
  communication : Option Int := none
deriving DecidableEq, Repr

/-- `RatingDraft()` with all fields defaulted to `None`. -/
def RatingDraft.empty : RatingDraft := {}

/-- `setattr(draft, self.category, score)`: overwrite one field of a draft. -/
def RatingDraft.setField (d : RatingDraft) (c : Category) (v : Int) :
    RatingDraft :=
  match c with
  | .service => { d with service := some v }
  | .solving => { d with solving := some v }
  | .communication => { d with communication := some v }

/-- `None in draft.__dict__.values()`: true iff some field is still unset. -/
def RatingDraft.hasNone (d : RatingDraft) : Bool :=
  d.service.isNone || d.solving.isNone || d.communication.isNone

/-- A row of the remote `ratings` table: one rater's scores for one admin,
keyed by `(admin_id, rater_id)`. -/
structure RatingRecord where
  admin_id : Int
  rater_id : Int
  service : Int
  solving : Int
  communication : Int
deriving DecidableEq, Repr

/-- Whether a stored row carries the conflict key `(admin_id, rater_id)`. -/
def RatingRecord.hasKey (x : RatingRecord) (a r : Int) : Bool :=
  x.admin_id = a && x.rater_id = r

/-- Modelled from the spec: the remote database's keyed upsert primitive,
which is not part of this repository (the source's `upsert_rating` issues
`sb.table("ratings").upsert(..., on_conflict="admin_id,rater_id")`).  A
repeat call for the same `(admin_id, rater_id)` pair replaces the prior
scores; a new pair inserts a fresh row. -/
def upsert_rating (table : List RatingRecord) (rec : RatingRecord) :
    List RatingRecord :=
  if table.any (fun x => x.hasKey rec.admin_id rec.rater_id) then
    table.map (fun x => if x.hasKey rec.admin_id rec.rater_id then rec else x)
  else
    table ++ [rec]

/-- The rows `select("service,solving,communication").eq("admin_id", ...)`
returns: all stored rows for the given admin. -/
def rowsFor (table : List RatingRecord) (admin_id : Int) : List RatingRecord :=
  table.filter (fun x => x.admin_id = admin_id)

/-- The dict returned by `fetch_stats`. -/
structure Stats where
  voters : Nat
  avg_service : Rat
  avg_solving : Rat
  avg_communication : Rat
  avg_total : Rat
deriving DecidableEq, Repr

/-- `fetch_stats` aggregation over the selected rows: zero voters gives all
averages `0.0`; otherwise per-category arithmetic means and their mean. -/
def fetch_stats (rows : List RatingRecord) : Stats :=
  if rows = [] then
    { voters := 0, avg_service := 0, avg_solving := 0,
      avg_communication := 0, avg_total := 0 }
  else
    let n : Rat := rows.length
    let s : Rat := ((rows.map (fun r => r.service)).sum : Int) / n
    let so : Rat := ((rows.map (fun r => r.solving)).sum : Int) / n
    let c : Rat := ((rows.map (fun r => r.communication)).sum : Int) / n
    { voters := rows.length, avg_service := s, avg_solving := so,
      avg_communication := c, avg_total := (s + so + c) / 3 }

/-- Python's builtin `round` on the exact value `q`: round half to even. -/
def pyRound (q : Rat) : Int :=
  if q - ⌊q⌋ < 1/2 then ⌊q⌋
  else if 1/2 < q - ⌊q⌋ then ⌊q⌋ + 1
  else if Even ⌊q⌋ then ⌊q⌋ else ⌊q⌋ + 1

/-- `stars(v)`: `n = int(round(v))`, clamped by `max(0, min(5, n))`,
rendered as `n` star glyphs when positive and the placeholder dash
otherwise. -/
def stars (v : Rat) : String :=
  let n := max 0 (min 5 (pyRound v))
  if n > 0 then String.join (List.replicate n.toNat "⭐") else "—"

/-- `get_custom_image`: the remote read either fails (the `except` arm) or
yields the list of matching rows, each carrying an optional `custom_image`
string.  The function returns the first row's image when present and truthy,
and `None` in every other case, errors included. -/
def get_custom_image (res : Except String (List (Option String))) :
    Option String :=
  match res with
  | .error _ => none
  | .ok data =>
    match data.head? with
    | some (some s) => if s = "" then none else some s
    | _ => none

/-- The user-visible reply a `StarSelect.callback` invocation ends with. -/
inductive Outcome
  | selfReject
  | savedPickNext
  | submitted
  | saveFailed
deriving DecidableEq, Repr

/-- The mutable state the callbacks touch: the process-wide `drafts` dict
keyed by `(admin_id, rater_id)`, and the remote `ratings` table. -/
structure BotState where
  drafts : Int × Int → Option RatingDraft
  ratings : List RatingRecord

/-- `StarSelect.callback`: reject self-rating, otherwise get-or-create the
draft, set the chosen category's field, and — when no field is `None`
anymore — upsert the completed record and drop the draft.  `backendFails`
is true when the remote upsert raises; then the `except` arm reports
failure and the draft (field already set) stays in the dict. -/
def starSelectCallback (st : BotState) (admin_id rater_id : Int)
    (category : Category) (score : Int) (backendFails : Bool) :
    BotState × Outcome :=
  if rater_id = admin_id then (st, .selfReject)
  else
    let key := (admin_id, rater_id)
    let draft := ((st.drafts key).getD RatingDraft.empty).setField category score
    let drafts1 := fun k => if k = key then some draft else st.drafts k
    if draft.hasNone then
      ({ st with drafts := drafts1 }, .savedPickNext)
    else if backendFails then
      ({ st with drafts := drafts1 }, .saveFailed)
    else
      ({ drafts := fun k => if k = key then none else drafts1 k,
         ratings := upsert_rating st.ratings
           { admin_id := admin_id, rater_id := rater_id,
             service := draft.service.getD 0, solving := draft.solving.getD 0,
             communication := draft.communication.getD 0 } },
       .submitted)

/-- `CategorySelect.callback`'s draft mutation,
`drafts[key] = drafts.get(key) or RatingDraft()`: get-or-create the draft
for `(admin_id, rater_id)` with no self-rating check. -/
def categorySelectCallback (st : BotState) (admin_id rater_id : Int) :
    BotState :=
  let key := (admin_id, rater_id)
  { st with drafts := fun k =>
      if k = key then some ((st.drafts key).getD RatingDraft.empty)
      else st.drafts k }

/-- Python's `str.startswith(pre)`: the code points of `pre` are a prefix
of the code points of `s`. -/
def strStartsWith (s pre : String) : Bool :=
  s.data.take pre.data.length = pre.data

/-- A message attachment as the `setupreview` handler sees it. -/
structure Attachment where
  content_type : Option String
  url : String
deriving DecidableEq, Repr

/-- An observable action of the `setupreview` handler body. -/
inductive SetupAction
  | deleteCommandMessage
  | sendUsage
  | ensureAdmin (admin_id : Int)
  | setImage (admin_id : Int) (url : String)
  | sendCard (admin_id : Int)
deriving DecidableEq, Repr

/-- The `setupreview` command body on the path where the backend calls
succeed: delete the invoking message, demand a mentioned admin, take the
first attachment's URL as `image_url` only when its declared content type
is truthy and starts with `"image/"`, ensure the admin row, set the custom
image only when `image_url` is truthy, and post the card. -/
def setupreview (admin : Option Int) (attachments : List Attachment) :
    List SetupAction :=
  match admin with
  | none => [.deleteCommandMessage, .sendUsage]
  | some aid =>
    let image_url : Option String :=
      match attachments.head? with
      | none => none
      | some att =>
        match att.content_type with
        | none => none
        | some ct =>
          if ct ≠ "" ∧ strStartsWith ct "image/" then some att.url else none
    [SetupAction.deleteCommandMessage, SetupAction.ensureAdmin aid] ++
      (match image_url with
       | some u => if u = "" then [] else [SetupAction.setImage aid u]
       | none => []) ++
      [SetupAction.sendCard aid]

/-- A sequence of star selections by one rater for one admin, all with the
backend write succeeding: runs `StarSelect.callback` once per
`(category, score)` pair and collects the replies. -/
def runStars (st : BotState) (admin_id rater_id : Int) :
    List (Category × Int) → BotState × List Outcome
  | [] => (st, [])
  | (c, v) :: rest =>
    let s := starSelectCallback st admin_id rater_id c v false
    let t := runStars s.1 admin_id rater_id rest
    (t.1, s.2 :: t.2)

/-- A sample stored row used to exercise the aggregation. -/
def sampleRow : RatingRecord :=
  { admin_id := 1, rater_id := 2, service := 3, solving := 4,
    communication := 5 }

/-- The state at process start: no drafts, no stored ratings. -/
def emptyState : BotState := ⟨fun _ => none, []⟩

/-- A state where rater 2 has already filled service and solving for
admin 1. -/
def partialState : BotState :=
  ⟨fun k => if k = (1, 2) then some ⟨some 3, some 4, none⟩ else none, []⟩

/-! ### Helper lemmas -/

theorem fetch_stats_voters (rows : List RatingRecord) :
    (fetch_stats rows).voters = rows.length := by
  by_cases h : rows = []
  · subst h; rfl
  · simp [fetch_stats, h]

/-! ### Claims -/

/-- C1: for every non-empty list of rating rows, `fetch_stats` returns
`voters` equal to the number of rows, each per-category average equal to the
arithmetic mean of that category over the rows, and `avg_total` equal to
`(avg_service + avg_solving + avg_communication) / 3`. -/
theorem fetch_stats_nonempty_spec (rows : List RatingRecord)
    (h : rows ≠ []) :
    (fetch_stats rows).voters = rows.length ∧
    (fetch_stats rows).avg_service
      = ((rows.map (fun r => r.service)).sum : Rat) / (rows.length : Rat) ∧
    (fetch_stats rows).avg_solving
      = ((rows.map (fun r => r.solving)).sum : Rat) / (rows.length : Rat) ∧
    (fetch_stats rows).avg_communication
      = ((rows.map (fun r => r.communication)).sum : Rat) / (rows.length : Rat) ∧
    (fetch_stats rows).avg_total
      = ((fetch_stats rows).avg_service + (fetch_stats rows).avg_solving
          + (fetch_stats rows).avg_communication) / 3 := by
  simp [fetch_stats, h, Function.comp_def]

/-- Witness for C1 at the single row `sampleRow` (scores 3, 4, 5). -/
theorem fetch_stats_nonempty_spec_witness :
    ([sampleRow] ≠ []) ∧
    ((fetch_stats [sampleRow]).voters = 1 ∧
     (fetch_stats [sampleRow]).avg_service = 3 ∧
     (fetch_stats [sampleRow]).avg_solving = 4 ∧
     (fetch_stats [sampleRow]).avg_communication = 5 ∧
     (fetch_stats [sampleRow]).avg_total = 4) := by
  obtain ⟨h1, h2, h3, h4, h5⟩ := fetch_stats_nonempty_spec [sampleRow] (by simp)
  refine ⟨by simp, by simpa using h1, ?_, ?_, ?_, ?_⟩
  · rw [h2]; norm_num [sampleRow]
  · rw [h3]; norm_num [sampleRow]
  · rw [h4]; norm_num [sampleRow]
  · rw [h5, h2, h3, h4]; norm_num [sampleRow]

/-- C4: a star selection where the acting rater's identity equals the
admin's identity is rejected with the self-rating error, and the state —
draft table and ratings store alike — is left untouched. -/
theorem starSelect_self_rejected (st : BotState) (a : Int) (c : Category)
    (v : Int) (f : Bool) :
    starSelectCallback st a a c v f = (st, Outcome.selfReject) := by
  simp [starSelectCallback]

/-- C6: aggregating an empty row set returns `voters = 0` and all four
averages `0.0`, as an ordinary (non-error) result. -/
theorem fetch_stats_empty :
    fetch_stats [] = { voters := 0, avg_service := 0, avg_solving := 0,
                       avg_communication := 0, avg_total := 0 } := rfl

/-- C8: `get_custom_image` treats every transport/backend error as the
value being absent: an erroring read returns `none` rather than
propagating the failure. -/
theorem get_custom_image_error_absent (e : String) :
    get_custom_image (Except.error e) = none := rfl

theorem pyRound_nearest (v : Rat) : |(pyRound v : Rat) - v| ≤ 1/2 := by
  have h0 : ((⌊v⌋ : Int) : Rat) ≤ v := Int.floor_le v
  have h1 : v < ((⌊v⌋ : Int) : Rat) + 1 := Int.lt_floor_add_one v
  unfold pyRound
  split_ifs with ha hb hc <;> rw [abs_le] <;>
    exact ⟨by push_cast; linarith, by push_cast; linarith⟩

theorem pyRound_five : pyRound ((23 : Rat)/5) = 5 := by
  have hf : ⌊((23 : Rat)/5)⌋ = 4 := by
    rw [Int.floor_eq_iff]; norm_num
  unfold pyRound
  rw [hf]
  norm_num

theorem pyRound_four : pyRound ((22 : Rat)/5) = 4 := by
  have hf : ⌊((22 : Rat)/5)⌋ = 4 := by
    rw [Int.floor_eq_iff]; norm_num
  unfold pyRound
  rw [hf]
  norm_num

theorem pyRound_int (n : Int) : pyRound (n : Rat) = n := by
  unfold pyRound
  rw [Int.floor_intCast]
  norm_num

/-- C7: the star-glyph renderer rounds its argument to a nearest integer,
clamps the result to `[0, 5]`, renders the placeholder dash when the
clamped value is `0` and that many star glyphs otherwise; in particular
`stars 0.0` is the placeholder, `stars 4.6` is five glyphs, `stars 4.4` is
four glyphs, and `stars 5.0` is five glyphs (clamped, not six). -/
theorem stars_spec (v : Rat) :
    |(pyRound v : Rat) - v| ≤ 1/2 ∧
    (0 : Int) ≤ max 0 (min 5 (pyRound v)) ∧
    max 0 (min 5 (pyRound v)) ≤ 5 ∧
    stars v = (if max 0 (min 5 (pyRound v)) = 0 then "—"
               else String.join
                 (List.replicate (max 0 (min 5 (pyRound v))).toNat "⭐")) ∧
    stars 0 = "—" ∧ stars ((23 : Rat)/5) = "⭐⭐⭐⭐⭐" ∧
    stars ((22 : Rat)/5) = "⭐⭐⭐⭐" ∧ stars 5 = "⭐⭐⭐⭐⭐" := by
  have hmax : (0 : Int) ≤ max 0 (min 5 (pyRound v)) := le_max_left 0 _
  refine ⟨pyRound_nearest v, hmax, max_le (by norm_num) (min_le_left 5 _),
    ?_, ?_, ?_, ?_, ?_⟩
  · by_cases h : max 0 (min 5 (pyRound v)) = 0
    · simp [stars, h]
    · have hpos : 0 < max 0 (min 5 (pyRound v)) := lt_of_le_of_ne hmax (Ne.symm h)
      simp [stars, h, hpos]
  · have h0 : pyRound ((0 : Int) : Rat) = 0 := pyRound_int 0
    simp only [Int.cast_zero] at h0
    simp [stars, h0]
  · simp [stars, pyRound_five]
    rfl
  · simp [stars, pyRound_four]
    rfl
  · have h5 : pyRound ((5 : Int) : Rat) = 5 := pyRound_int 5
    simp only [Int.cast_ofNat] at h5
    simp [stars, h5]
    rfl

/-- C2: for a fresh draft, setting service, then solving, then
communication completes only after the third selection; exactly then the
completed record reaches the store and the draft is removed; the first two
selections leave the store untouched; re-setting service before completion
persists the second value; and in general a star selection that changes the
store implies the draft it wrote was complete. -/
theorem draft_completion_protocol (st : BotState) (a r : Int)
    (hne : r ≠ a) (hfresh : st.drafts (a, r) = none) :
    (runStars st a r [(.service, 3), (.solving, 4), (.communication, 5)]).2
      = [Outcome.savedPickNext, Outcome.savedPickNext, Outcome.submitted] ∧
    (runStars st a r [(.service, 3)]).1.ratings = st.ratings ∧
    (runStars st a r [(.service, 3), (.solving, 4)]).1.ratings = st.ratings ∧
    (runStars st a r [(.service, 3), (.solving, 4), (.communication, 5)]).1.ratings
      = upsert_rating st.ratings ⟨a, r, 3, 4, 5⟩ ∧
    (runStars st a r [(.service, 3), (.solving, 4), (.communication, 5)]).1.drafts (a, r)
      = none ∧
    (runStars st a r
        [(.service, 3), (.service, 1), (.solving, 4), (.communication, 5)]).1.ratings
      = upsert_rating st.ratings ⟨a, r, 1, 4, 5⟩ ∧
    (∀ st' a' r' c v f,
      (starSelectCallback st' a' r' c v f).1.ratings ≠ st'.ratings →
      (((st'.drafts (a', r')).getD RatingDraft.empty).setField c v).hasNone
        = false) := by
  refine ⟨?_, ?_, ?_, ?_, ?_, ?_, ?_⟩
  · simp [runStars, starSelectCallback, hne, hfresh, RatingDraft.setField,
      RatingDraft.hasNone, RatingDraft.empty]
  · simp [runStars, starSelectCallback, hne, hfresh, RatingDraft.setField,
      RatingDraft.hasNone, RatingDraft.empty]
  · simp [runStars, starSelectCallback, hne, hfresh, RatingDraft.setField,
      RatingDraft.hasNone, RatingDraft.empty]
  · simp [runStars, starSelectCallback, hne, hfresh, RatingDraft.setField,
      RatingDraft.hasNone, RatingDraft.empty]
  · simp [runStars, starSelectCallback, hne, hfresh, RatingDraft.setField,
      RatingDraft.hasNone, RatingDraft.empty]
  · simp [runStars, starSelectCallback, hne, hfresh, RatingDraft.setField,
      RatingDraft.hasNone, RatingDraft.empty]
  · intro st' a' r' c v f hch
    by_cases hself : r' = a'
    · subst hself
      simp [starSelectCallback] at hch
    · by_cases hd :
        (((st'.drafts (a', r')).getD RatingDraft.empty).setField c v).hasNone
      · exact absurd (by simp [starSelectCallback, hself, hd]) hch
      · simpa using hd

/-- Witness for C2: admin 1, rater 2, starting from the empty state. -/
theorem draft_completion_protocol_witness :
    (runStars emptyState 1 2 [(.service, 3), (.solving, 4), (.communication, 5)]).2
      = [Outcome.savedPickNext, Outcome.savedPickNext, Outcome.submitted] ∧
    (runStars emptyState 1 2 [(.service, 3)]).1.ratings = emptyState.ratings ∧
    (runStars emptyState 1 2 [(.service, 3), (.solving, 4)]).1.ratings
      = emptyState.ratings ∧
    (runStars emptyState 1 2
        [(.service, 3), (.solving, 4), (.communication, 5)]).1.ratings
      = upsert_rating emptyState.ratings ⟨1, 2, 3, 4, 5⟩ ∧
    (runStars emptyState 1 2
        [(.service, 3), (.solving, 4), (.communication, 5)]).1.drafts (1, 2)
      = none ∧
    (runStars emptyState 1 2
        [(.service, 3), (.service, 1), (.solving, 4), (.communication, 5)]).1.ratings
      = upsert_rating emptyState.ratings ⟨1, 2, 1, 4, 5⟩ ∧
    (∀ st' a' r' c v f,
      (starSelectCallback st' a' r' c v f).1.ratings ≠ st'.ratings →
      (((st'.drafts (a', r')).getD RatingDraft.empty).setField c v).hasNone
        = false) :=
  draft_completion_protocol emptyState 1 2 (by decide) rfl

/-- C5: when the completing write's backend call fails, the rater is told
the submission failed, the ratings store is unchanged, and the draft —
every filled field included — stays in the table for a retry. -/
theorem draft_survives_backend_failure (st : BotState) (a r : Int)
    (c : Category) (v : Int) (hne : r ≠ a)
    (hcompl : (((st.drafts (a, r)).getD RatingDraft.empty).setField c v).hasNone
      = false) :
    (starSelectCallback st a r c v true).2 = Outcome.saveFailed ∧
    (starSelectCallback st a r c v true).1.ratings = st.ratings ∧
    (starSelectCallback st a r c v true).1.drafts (a, r)
      = some (((st.drafts (a, r)).getD RatingDraft.empty).setField c v) ∧
    (∀ k, k ≠ (a, r) →
      (starSelectCallback st a r c v true).1.drafts k = st.drafts k) := by
  refine ⟨?_, ?_, ?_, ?_⟩
  · simp [starSelectCallback, hne, hcompl]
  · simp [starSelectCallback, hne, hcompl]
  · simp [starSelectCallback, hne, hcompl]
  · intro k hk
    simp [starSelectCallback, hne, hcompl, hk]

/-- Witness for C5: rater 2's draft for admin 1 holds service 3 and
solving 4; the completing communication-5 selection fails at the backend. -/
theorem draft_survives_backend_failure_witness :
    (starSelectCallback partialState 1 2 .communication 5 true).2
      = Outcome.saveFailed ∧
    (starSelectCallback partialState 1 2 .communication 5 true).1.ratings
      = partialState.ratings ∧
    (starSelectCallback partialState 1 2 .communication 5 true).1.drafts (1, 2)
      = some (((partialState.drafts (1, 2)).getD
          RatingDraft.empty).setField .communication 5) ∧
    (∀ k, k ≠ ((1 : Int), (2 : Int)) →
      (starSelectCallback partialState 1 2 .communication 5 true).1.drafts k
        = partialState.drafts k) :=
  draft_survives_backend_failure partialState 1 2 .communication 5
    (by decide) (by decide)

/-- C10: the no-self-rating check lives only in the star-selection step: a
category pick by the admin for themselves still creates (or keeps) the
draft keyed `(admin, admin)`, and every self star selection leaves the
state untouched, so no successful submission ever clears that draft. -/
theorem self_rating_checked_only_at_star_step (st : BotState) (a : Int) :
    (categorySelectCallback st a a).drafts (a, a)
      = some ((st.drafts (a, a)).getD RatingDraft.empty) ∧
    (∀ st' c v f, starSelectCallback st' a a c v f = (st', Outcome.selfReject)) := by
  constructor
  · simp [categorySelectCallback]
  · intro st' c v f
    simp [starSelectCallback]

theorem filter_map_upsert (T : List RatingRecord) (rec : RatingRecord)
    (p : RatingRecord → Bool) (hp : p rec = true) :
    (T.map (fun x => if p x then rec else x)).filter p
      = List.replicate (T.countP p) rec := by
  induction T with
  | nil => rfl
  | cons x xs ih =>
    by_cases h : p x
    · simp [List.filter_cons, List.countP_cons, h, hp, ih, List.replicate_succ]
    · simp [List.filter_cons, List.countP_cons, h, ih]

theorem upsert_filter_key (T : List RatingRecord) (rec : RatingRecord)
    (h : (T.filter (fun x => x.hasKey rec.admin_id rec.rater_id)).length ≤ 1) :
    (upsert_rating T rec).filter (fun x => x.hasKey rec.admin_id rec.rater_id)
      = [rec] := by
  have hp : rec.hasKey rec.admin_id rec.rater_id = true := by
    simp [RatingRecord.hasKey]
  unfold upsert_rating
  by_cases ha : T.any (fun x => x.hasKey rec.admin_id rec.rater_id)
  · rw [if_pos ha, filter_map_upsert T rec _ hp]
    have h1 : 0 < T.countP (fun x => x.hasKey rec.admin_id rec.rater_id) := by
      rw [List.countP_pos_iff]
      obtain ⟨x, hx, hpx⟩ := List.any_eq_true.mp ha
      exact ⟨x, hx, hpx⟩
    have h2 : T.countP (fun x => x.hasKey rec.admin_id rec.rater_id) ≤ 1 := by
      rw [List.countP_eq_length_filter]
      exact h
    rw [le_antisymm h2 h1]
    rfl
  · rw [if_neg ha, List.filter_append]
    have hnil : T.filter (fun x => x.hasKey rec.admin_id rec.rater_id) = [] := by
      rw [List.filter_eq_nil_iff]
      intro x hx hc
      exact ha (List.any_eq_true.mpr ⟨x, hx, hc⟩)
    rw [hnil]
    simp [hp]

/-- C3: from any table holding at most one row for the pair `(a, r)` (the
backend's primary-key invariant), two successive upserts for that pair
leave exactly one stored row for it, holding the second call's scores, and
the admin's voter count after the second call equals the count after the
first (resubmission replaces, it does not add). -/
theorem upsert_rating_overwrites (T : List RatingRecord)
    (a r s1 so1 c1 s2 so2 c2 : Int)
    (huniq : (T.filter (fun x => x.hasKey a r)).length ≤ 1) :
    ((upsert_rating (upsert_rating T ⟨a, r, s1, so1, c1⟩)
        ⟨a, r, s2, so2, c2⟩).filter (fun x => x.hasKey a r)
      = [⟨a, r, s2, so2, c2⟩]) ∧
    (fetch_stats (rowsFor (upsert_rating (upsert_rating T ⟨a, r, s1, so1, c1⟩)
        ⟨a, r, s2, so2, c2⟩) a)).voters
      = (fetch_stats (rowsFor (upsert_rating T ⟨a, r, s1, so1, c1⟩) a)).voters := by
  have hkey1 : (upsert_rating T ⟨a, r, s1, so1, c1⟩).filter
      (fun x => x.hasKey a r) = [⟨a, r, s1, so1, c1⟩] :=
    upsert_filter_key T ⟨a, r, s1, so1, c1⟩ huniq
  have hlen1 : ((upsert_rating T ⟨a, r, s1, so1, c1⟩).filter
      (fun x => x.hasKey a r)).length ≤ 1 := by
    rw [hkey1]
    simp
  have hkey2 : (upsert_rating (upsert_rating T ⟨a, r, s1, so1, c1⟩)
      ⟨a, r, s2, so2, c2⟩).filter (fun x => x.hasKey a r)
      = [⟨a, r, s2, so2, c2⟩] :=
    upsert_filter_key (upsert_rating T ⟨a, r, s1, so1, c1⟩) ⟨a, r, s2, so2, c2⟩ hlen1
  refine ⟨hkey2, ?_⟩
  rw [fetch_stats_voters, fetch_stats_voters]
  have hany : (upsert_rating T ⟨a, r, s1, so1, c1⟩).any
      (fun x => x.hasKey a r) = true := by
    rw [List.any_eq_true]
    have hm : (⟨a, r, s1, so1, c1⟩ : RatingRecord)
        ∈ (upsert_rating T ⟨a, r, s1, so1, c1⟩).filter (fun x => x.hasKey a r) := by
      rw [hkey1]
      exact List.mem_singleton.mpr rfl
    obtain ⟨hmem, hpx⟩ := List.mem_filter.mp hm
    exact ⟨_, hmem, hpx⟩
  show ((upsert_rating (upsert_rating T ⟨a, r, s1, so1, c1⟩)
      ⟨a, r, s2, so2, c2⟩).filter (fun x => x.admin_id = a)).length
    = ((upsert_rating T ⟨a, r, s1, so1, c1⟩).filter
        (fun x => x.admin_id = a)).length
  conv_lhs => rw [upsert_rating]
  rw [if_pos hany]
  rw [← List.countP_eq_length_filter, ← List.countP_eq_length_filter,
    List.countP_map]
  apply List.countP_congr
  intro x _
  by_cases hk : x.hasKey a r
  · have hxa : x.admin_id = a := by
      simp only [RatingRecord.hasKey, Bool.and_eq_true, decide_eq_true_eq] at hk
      exact hk.1
    simp [Function.comp, hk, hxa]
  · simp [Function.comp, hk]

/-- Witness for C3: the empty table, pair `(1, 2)`, scores `(3,4,5)` then
`(1,1,1)`. -/
theorem upsert_rating_overwrites_witness :
    ((upsert_rating (upsert_rating [] ⟨1, 2, 3, 4, 5⟩)
        ⟨1, 2, 1, 1, 1⟩).filter (fun x => x.hasKey 1 2)
      = [⟨1, 2, 1, 1, 1⟩]) ∧
    (fetch_stats (rowsFor (upsert_rating (upsert_rating [] ⟨1, 2, 3, 4, 5⟩)
        ⟨1, 2, 1, 1, 1⟩) 1)).voters
      = (fetch_stats (rowsFor (upsert_rating [] ⟨1, 2, 3, 4, 5⟩) 1)).voters :=
  upsert_rating_overwrites [] 1 2 3 4 5 1 1 1 (by simp)

/-- C9 counterexample: for the concrete command `!setupreview @1` carrying
a `text/plain` attachment, the handler's entire visible behaviour is to
delete the invoking message, ensure the admin row, and post the card — it
emits no user-visible rejection message for the non-image attachment
(contradicting the claim that one is sent), though it does leave the
custom image unset and proceeds normally. -/
theorem setupreview_nonimage_counterexample :
    setupreview (some 1)
        [{ content_type := some "text/plain", url := "http://e/f.txt" }]
      = [SetupAction.deleteCommandMessage, SetupAction.ensureAdmin 1,
         SetupAction.sendCard 1] ∧
    (∀ u, SetupAction.setImage 1 u
      ∉ setupreview (some 1)
          [{ content_type := some "text/plain", url := "http://e/f.txt" }]) ∧
    SetupAction.sendUsage
      ∉ setupreview (some 1)
          [{ content_type := some "text/plain", url := "http://e/f.txt" }] := by
  refine ⟨by decide, ?_, by decide⟩
  intro u
  have he : setupreview (some 1)
      [{ content_type := some "text/plain", url := "http://e/f.txt" }]
      = [SetupAction.deleteCommandMessage, SetupAction.ensureAdmin 1,
         SetupAction.sendCard 1] := by decide
  rw [he]
  simp

/-- C9 (amended): a non-image attachment is silently ignored — no custom
image is set, no rejection message is sent, and the command proceeds
normally (delete the invoking message, ensure the admin row, post the
card). -/
theorem setupreview_nonimage_ignored (aid : Int) (att : Attachment)
    (rest : List Attachment)
    (h : att.content_type = none ∨
      ∃ ct, att.content_type = some ct ∧ strStartsWith ct "image/" = false) :
    setupreview (some aid) (att :: rest)
      = [SetupAction.deleteCommandMessage, SetupAction.ensureAdmin aid,
         SetupAction.sendCard aid] := by
  unfold setupreview
  rcases h with hn | ⟨ct, hct, hst⟩
  · simp [hn]
  · simp [hct, hst]

/-- Witness for C9 (amended) at a `application/pdf` attachment. -/
theorem setupreview_nonimage_ignored_witness :
    setupreview (some 1)
        [{ content_type := some "application/pdf", url := "http://e/d.pdf" }]
      = [SetupAction.deleteCommandMessage, SetupAction.ensureAdmin 1,
         SetupAction.sendCard 1] :=
  setupreview_nonimage_ignored 1
    { content_type := some "application/pdf", url := "http://e/d.pdf" } []
    (Or.inr ⟨"application/pdf", rfl, by decide⟩)
